import Mathlib

/-!
# JarvisHUD: event routing, capped log and landmark overlay

A shallow embedding of `Project1/frontend/JarvisHUD.jsx`.  The component holds
three pieces of React state (`connected`, `gesture`, `log`), three refs
(`videoRef`, `canvasRef`, `wsRef`) and installs the handlers `ws.onopen`,
`ws.onmessage`, `ws.onclose` plus an unmount cleanup.  Handlers run to
completion one after another, so a handler is a function from the state before
to the state after together with its completion (normal or a thrown error).

Numbers are exact rationals; `NaN` is `none`.
-/

namespace JarvisHUD

/-! ## Values -/

/-- A value produced by `JSON.parse`. An object is its list of own properties;
on a repeated key the first binding in the list is the property's value. -/
inductive Json where
  | null
  | bool (b : Bool)
  | num (q : ℚ)
  | str (s : String)
  | arr (xs : List Json)
  | obj (props : List (String × Json))

/-- A JavaScript value reachable in the component: `none` is `undefined`. -/
abbrev JsVal := Option Json

/-- Errors the handlers can throw. -/
inductive JsError where
  | TypeError
  | SyntaxError
  deriving DecidableEq, Repr

/-- How a handler ends. -/
inductive Completion where
  | normal
  | throw (e : JsError)
  deriving DecidableEq, Repr

/-- The two number conversions the component takes from the JavaScript runtime:
`Number::toString` and `StringToNumber` (`none` is `NaN`). -/
structure Platform where
  numberToString : ℚ → String
  stringToNumber : String → Option ℚ

/-- A runtime with constant conversions, for runs in which no number is
converted. -/
def Platform.const : Platform := ⟨fun _ => "0", fun _ => none⟩

/-- Property read `v.key` for the keys the component reads (`type`, `gesture`,
`action`, `landmarks`, `x`, `y`), none of which is on a built-in prototype:
`undefined` and `null` throw, an object yields its own property or `undefined`,
every other value yields `undefined`. -/
def getProp (v : JsVal) (key : String) : Except JsError JsVal :=
  match v with
  | none => .error .TypeError
  | some .null => .error .TypeError
  | some (.obj props) => .ok (props.lookup key)
  | some _ => .ok none

/-- Strict equality `v === s` against a string literal. -/
def strictEqStr (v : JsVal) (s : String) : Bool :=
  match v with
  | some (.str t) => t == s
  | _ => false

/-- Whether an object has an own property `key`. -/
def hasOwn (props : List (String × Json)) (key : String) : Bool :=
  (props.lookup key).isSome

mutual
/-- The conversion `ToString` on a parsed value. An object is converted by
`Object.prototype.toString` unless an own (hence non-callable) `toString`
shadows it, in which case no conversion exists and a `TypeError` is thrown. -/
def Json.toStr (P : Platform) : Json → Except JsError String
  | .null => .ok "null"
  | .bool b => .ok (if b then "true" else "false")
  | .num q => .ok (P.numberToString q)
  | .str s => .ok s
  | .arr xs => Json.joinStr P xs
  | .obj props => if hasOwn props "toString" then .error .TypeError else .ok "[object Object]"
termination_by structural x => x
/-- The method `Array.prototype.join(",")`, which `ToString` of an array calls: a `null`
element gives the empty string, any other element its `ToString`. -/
def Json.joinStr (P : Platform) : List Json → Except JsError String
  | [] => .ok ""
  | x :: rest =>
    match (match x with
      | .null => (.ok "" : Except JsError String)
      | x => Json.toStr P x) with
    | .error e => .error e
    | .ok a =>
      match Json.joinStr P rest with
      | .error e => .error e
      | .ok b => .ok (if rest.isEmpty then a else a ++ "," ++ b)
termination_by structural x => x
end

/-- The conversion `ToString` on a value: `undefined` prints as its name. -/
def toStrVal (P : Platform) : JsVal → Except JsError String
  | none => .ok "undefined"
  | some j => j.toStr P

/-- The conversion `ToNumber` on a value, as the operator `*` applies it. An array goes
through its join; an object without an own `toString` prints as
`[object Object]`, which is not a numeric literal, so it converts to `NaN`. -/
def toNumber (P : Platform) : JsVal → Except JsError (Option ℚ)
  | none => .ok none
  | some .null => .ok (some 0)
  | some (.bool b) => .ok (some (if b then 1 else 0))
  | some (.num q) => .ok (some q)
  | some (.str s) => .ok (P.stringToNumber s)
  | some (.arr xs) =>
    match Json.joinStr P xs with
    | .error e => .error e
    | .ok s => .ok (P.stringToNumber s)
  | some (.obj props) => if hasOwn props "toString" then .error .TypeError else .ok none

/-- The values a `for ... of` loop visits: the elements of an array, the
characters of a string; nothing else that `JSON.parse` yields is iterable. -/
def iterate : JsVal → Except JsError (List Json)
  | some (.arr xs) => .ok xs
  | some (.str s) => .ok (s.data.map fun ch => Json.str (String.singleton ch))
  | _ => .error .TypeError

/-! ## Drawing surface -/

/-- A full circle, as `arc(cx, cy, radius, 0, 2π)` adds it to the path. -/
structure Circle where
  cx : ℚ
  cy : ℚ
  radius : ℚ
  deriving DecidableEq

/-- A filled shape on the bitmap. -/
structure Marker where
  shape : Circle
  fill : String
  deriving DecidableEq

/-- The canvas element with its 2D context: bitmap size, context fill style,
current path, and the shapes painted since the bitmap was last cleared, in the
order they were painted. -/
structure Canvas where
  width : Nat
  height : Nat
  fillStyle : String
  path : List Circle
  painted : List Marker
  deriving DecidableEq

/-- The video element: `videoWidth` and `videoHeight`. -/
structure Video where
  videoWidth : Nat
  videoHeight : Nat
  deriving DecidableEq

/-- Assignment `c.width = w`: sets the size, clears the bitmap and resets the
context to its default state. -/
def Canvas.setWidth (c : Canvas) (w : Nat) : Canvas :=
  { width := w, height := c.height, fillStyle := "#000000", path := [], painted := [] }

/-- Assignment `c.height = h`. -/
def Canvas.setHeight (c : Canvas) (h : Nat) : Canvas :=
  { width := c.width, height := h, fillStyle := "#000000", path := [], painted := [] }

/-- The call `ctx.clearRect(0,0,c.width,c.height)`: the whole bitmap is erased. -/
def Canvas.clearRect (c : Canvas) : Canvas :=
  { c with painted := [] }

/-- The call `ctx.beginPath()`. -/
def Canvas.beginPath (c : Canvas) : Canvas :=
  { c with path := [] }

/-- The call `ctx.arc(x, y, r, 0, Math.PI*2)`: returns without effect when an
argument is `NaN`. -/
def Canvas.arc (c : Canvas) (x y : Option ℚ) (r : ℚ) : Canvas :=
  match x, y with
  | some x, some y => { c with path := c.path ++ [⟨x, y, r⟩] }
  | _, _ => c

/-- The call `ctx.fill()`: paints the current path in the current fill style. -/
def Canvas.fill (c : Canvas) : Canvas :=
  { c with painted := c.painted ++ c.path.map fun k => ⟨k, c.fillStyle⟩ }

/-- The product `p.key * dim` of the loop body. -/
def coord (P : Platform) (p : Json) (key : String) (dim : Nat) : Except JsError (Option ℚ) :=
  match getProp (some p) key with
  | .error e => .error e
  | .ok v =>
    match toNumber P v with
    | .error e => .error e
    | .ok n => .ok (n.map fun q => q * dim)

/-- One iteration of the loop in `draw`. -/
def drawPoint (P : Platform) (c : Canvas) (p : Json) : Canvas × Completion :=
  let c := c.beginPath
  match coord P p "x" c.width with
  | .error e => (c, .throw e)
  | .ok x =>
    match coord P p "y" c.height with
    | .error e => (c, .throw e)
    | .ok y => ((c.arc x y 4).fill, .normal)

/-- The loop `for(let p of landmarks){...}` over the visited values: a throw
ends it, what was painted before stays. -/
def drawLoop (P : Platform) : Canvas → List Json → Canvas × Completion
  | c, [] => (c, .normal)
  | c, p :: ps =>
    match drawPoint P c p with
    | (c, .normal) => drawLoop P c ps
    | (c, .throw e) => (c, .throw e)

/-! ## Component state and handlers -/

/-- The socket held in `wsRef`: whether `close()` was called on it. -/
structure WebSocket where
  closeCalled : Bool
  deriving DecidableEq

/-- State of a mounted component: the three `useState` cells and the three refs
(`none` is a `null` ref). -/
structure State where
  connected : Bool
  gesture : JsVal
  log : List String
  canvasRef : Option Canvas
  videoRef : Option Video
  wsRef : Option WebSocket

/-- State once the mount effect has run: `useState(false)`, `useState('—')`,
`useState([])`, and `wsRef.current=ws`. -/
def State.init (c : Option Canvas) (v : Option Video) : State :=
  { connected := false, gesture := some (.str "—"), log := [],
    canvasRef := c, videoRef := v, wsRef := some ⟨false⟩ }

/-- The function `push(t)`: `setLog(prev=>[t,...prev].slice(0,40))`. -/
def push (t : String) (s : State) : State :=
  { s with log := (t :: s.log).take 40 }

/-- The function `draw(landmarks)`: returns at once when a ref is `null`;
otherwise sizes the canvas to the video, clears it, sets the fill style and
paints one circle per visited value. -/
def draw (P : Platform) (landmarks : JsVal) (s : State) : State × Completion :=
  match s.canvasRef, s.videoRef with
  | some c, some v =>
    let c := c.setWidth v.videoWidth
    let c := c.setHeight v.videoHeight
    let c := c.clearRect
    let c := { c with fillStyle := "rgba(0,255,0,0.9)" }
    match iterate landmarks with
    | .error e => ({ s with canvasRef := some c }, .throw e)
    | .ok ps => ({ s with canvasRef := some (drawLoop P c ps).1 }, (drawLoop P c ps).2)
  | _, _ => (s, .normal)

/-- The handler `ws.onopen`: `setConnected(true); push('Connected')`. -/
def onopen (s : State) : State :=
  push "Connected" { s with connected := true }

/-- The handler `ws.onclose`: `setConnected(false)`. -/
def onclose (s : State) : State :=
  { s with connected := false }

/-- The template literal of the gesture branch, from the two property values. -/
def gestureEntry (P : Platform) (g a : JsVal) : Except JsError String :=
  match toStrVal P g with
  | .error e => .error e
  | .ok gs =>
    match toStrVal P a with
    | .error e => .error e
    | .ok as => .ok ("G:" ++ gs ++ "->" ++ as)

/-- The handler `ws.onmessage` on the outcome of `JSON.parse(e.data)`; `none` is a payload
that does not parse, on which `JSON.parse` throws. -/
def onmessage (P : Platform) (data : Option Json) (s : State) : State × Completion :=
  match data with
  | none => (s, .throw .SyntaxError)
  | some m =>
    match getProp (some m) "type" with
    | .error e => (s, .throw e)
    | .ok ty =>
      if strictEqStr ty "gesture" then
        match getProp (some m) "gesture" with
        | .error e => (s, .throw e)
        | .ok g =>
          let s := { s with gesture := g }
          match getProp (some m) "action" with
          | .error e => (s, .throw e)
          | .ok a =>
            match gestureEntry P g a with
            | .error e => (s, .throw e)
            | .ok t => (push t s, .normal)
      else if strictEqStr ty "landmarks" then
        match getProp (some m) "landmarks" with
        | .error e => (s, .throw e)
        | .ok l => draw P l s
      else (s, .normal)

/-- The cleanup returned by the effect: `if(wsRef.current) wsRef.current.close()`. -/
def cleanup (s : State) : State :=
  match s.wsRef with
  | some _ => { s with wsRef := some ⟨true⟩ }
  | none => s

/-- What can happen to a mounted component. -/
inductive Event where
  | open
  | close
  | message (data : Option Json)
  | unmount

/-- The state after one event. A throw inside a handler ends that handler only:
the updates it made before stay and the next event is handled as usual. -/
def step (P : Platform) (s : State) : Event → State
  | .open => onopen s
  | .close => onclose s
  | .message data => (onmessage P data s).1
  | .unmount => cleanup s

/-- The events of a sequence handled in order. -/
def run (P : Platform) (s : State) (evs : List Event) : State :=
  evs.foldl (step P) s

/-! ## Vocabulary of the specification -/

/-- The payload's type discriminant is the string `t`. A payload whose `type`
cannot be read, or is not a string, has no discriminant. -/
def typeIs (m : Json) (t : String) : Bool :=
  match getProp (some m) "type" with
  | .ok ty => strictEqStr ty t
  | .error _ => false

/-- The log entry the specification assigns to an event: `Connected` for an
open; for a message of type `gesture` the text `G:<gesture>-><action>`, the two
fields printed as the template literal prints them, and nothing when a field
cannot be printed; nothing for every other event. -/
def logEntry (P : Platform) : Event → Option String
  | .open => some "Connected"
  | .message (some m) =>
    if typeIs m "gesture" then
      match getProp (some m) "gesture", getProp (some m) "action" with
      | .ok g, .ok a =>
        match gestureEntry P g a with
        | .ok t => some t
        | .error _ => none
      | _, _ => none
    else none
  | _ => none

/-- The entries of a sequence of events, in arrival order. -/
def entries (P : Platform) (evs : List Event) : List String :=
  evs.filterMap (logEntry P)

/-- The gesture identifier of an event: the `gesture` value of a message of
type `gesture`; no other event has one. -/
def gestureOf : Event → Option JsVal
  | .message (some m) =>
    if typeIs m "gesture" then
      match getProp (some m) "gesture" with
      | .ok g => some g
      | .error _ => none
    else none
  | _ => none

/-- A landmark point with coordinates `p`: an object whose `x` and `y` are the
numbers `p.1` and `p.2`. -/
def IsPoint (j : Json) (p : ℚ × ℚ) : Prop :=
  getProp (some j) "x" = .ok (some (.num p.1)) ∧ getProp (some j) "y" = .ok (some (.num p.2))

/-- The marker the specification assigns to a point on a `w` by `h` surface. -/
def markerAt (w h : Nat) (p : ℚ × ℚ) : Marker :=
  ⟨⟨p.1 * w, p.2 * h, 4⟩, "rgba(0,255,0,0.9)"⟩

/-- A gesture payload in the shape of the wire schema. -/
def gestureMsg (g a : String) : Json :=
  .obj [("type", .str "gesture"), ("gesture", .str g), ("action", .str a)]

/-- A landmarks payload in the shape of the wire schema. -/
def landmarksMsg (pts : List (ℚ × ℚ)) : Json :=
  .obj [("type", .str "landmarks"),
        ("landmarks", .arr (pts.map fun p => .obj [("x", .num p.1), ("y", .num p.2)]))]

/-- A blank canvas of the default size. -/
def Canvas.blank : Canvas := ⟨300, 150, "#000000", [], []⟩

/-- Forty-two distinct gesture identifiers. -/
def ids42 : List String :=
  ["g1", "g2", "g3", "g4", "g5", "g6", "g7", "g8", "g9", "g10", "g11", "g12", "g13", "g14",
   "g15", "g16", "g17", "g18", "g19", "g20", "g21", "g22", "g23", "g24", "g25", "g26",
   "g27", "g28", "g29", "g30", "g31", "g32", "g33", "g34", "g35", "g36", "g37", "g38",
   "g39", "g40", "g41", "g42"]

/-- Forty-two gesture messages with distinct identifiers, in arrival order. -/
def events42 : List Event :=
  ids42.map fun g => Event.message (some (gestureMsg g "act"))

/-- A run with every kind of event: open, a gesture, landmarks, an unknown
type, an unparseable payload, close. -/
def mixedRun : List Event :=
  [.open, .message (some (gestureMsg "swipe_left" "prev_track")),
   .message (some (landmarksMsg [(1/2, 1/4)])), .message (some (.obj [("type", .str "ping")])),
   .message none, .close]

/-! ## Frame lemmas -/

theorem draw_log (P : Platform) (l : JsVal) (s : State) : (draw P l s).1.log = s.log := by
  unfold draw; split
  · split <;> rfl
  · rfl

theorem draw_gesture (P : Platform) (l : JsVal) (s : State) :
    (draw P l s).1.gesture = s.gesture := by
  unfold draw; split
  · split <;> rfl
  · rfl

theorem draw_connected (P : Platform) (l : JsVal) (s : State) :
    (draw P l s).1.connected = s.connected := by
  unfold draw; split
  · split <;> rfl
  · rfl

theorem draw_videoRef (P : Platform) (l : JsVal) (s : State) :
    (draw P l s).1.videoRef = s.videoRef := by
  unfold draw; split
  · split <;> rfl
  · rfl

theorem draw_wsRef (P : Platform) (l : JsVal) (s : State) :
    (draw P l s).1.wsRef = s.wsRef := by
  unfold draw; split
  · split <;> rfl
  · rfl

theorem getProp_ok_of_type {m : Json} {ty : JsVal} (h : getProp (some m) "type" = .ok ty)
    (key : String) : ∃ v, getProp (some m) key = .ok v := by
  cases m <;> simp [getProp] at h ⊢

/-- A message either leaves the log alone or pushes one entry. -/
theorem onmessage_log (P : Platform) (data : Option Json) (s : State) :
    (onmessage P data s).1.log = s.log ∨
      ∃ t, (onmessage P data s).1.log = (t :: s.log).take 40 := by
  unfold onmessage
  split
  · exact Or.inl rfl
  · split
    · exact Or.inl rfl
    · split
      · split
        · exact Or.inl rfl
        · split
          · exact Or.inl rfl
          · split
            · exact Or.inl rfl
            · exact Or.inr ⟨_, rfl⟩
      · split
        · split
          · exact Or.inl rfl
          · exact Or.inl (draw_log _ _ _)
        · exact Or.inl rfl

theorem step_log (P : Platform) (s : State) (e : Event) :
    (step P s e).log = s.log ∨ ∃ t, (step P s e).log = (t :: s.log).take 40 := by
  cases e with
  | «open» => exact Or.inr ⟨"Connected", rfl⟩
  | close => exact Or.inl rfl
  | message data => exact onmessage_log P data s
  | unmount =>
    refine Or.inl ?_
    simp only [step, cleanup]
    split <;> rfl

theorem step_log_length (P : Platform) (s : State) (e : Event) (h : s.log.length ≤ 40) :
    (step P s e).log.length ≤ 40 := by
  rcases step_log P s e with h1 | ⟨t, h1⟩
  · rw [h1]; exact h
  · rw [h1, List.length_take]; exact Nat.min_le_left _ _

theorem run_log_length (P : Platform) (evs : List Event) (s : State) (h : s.log.length ≤ 40) :
    (run P s evs).log.length ≤ 40 := by
  induction evs generalizing s with
  | nil => exact h
  | cons e evs ih => exact ih (step P s e) (step_log_length P s e h)

/-- The gesture branch of `ws.onmessage` on a payload with string fields. -/
theorem onmessage_gesture_strings (P : Platform) (s : State) (m : Json) (g a : String)
    (ht : typeIs m "gesture" = true)
    (hg : getProp (some m) "gesture" = .ok (some (.str g)))
    (ha : getProp (some m) "action" = .ok (some (.str a))) :
    onmessage P (some m) s =
      ({ s with gesture := some (.str g),
                log := (("G:" ++ g ++ "->" ++ a) :: s.log).take 40 }, .normal) := by
  unfold typeIs at ht
  unfold onmessage
  cases hty : getProp (some m) "type" with
  | error e => rw [hty] at ht; simp at ht
  | ok ty =>
    rw [hty] at ht
    have ht2 : strictEqStr ty "gesture" = true := ht
    simp only [hty, ht2, if_true, hg, ha, gestureEntry, toStrVal, Json.toStr, push]

/-- C4: the log never exceeds 40 entries. In every state reached from the
initial state by any finite sequence of open, close, message (parsed or not)
and unmount events the log has at most 40 entries; `push` returns a log of at
most 40 entries from any log (so in particular from one of at most 40); and
every event either leaves the log as it was or is one `push` on it. -/
theorem log_never_exceeds_40 (P : Platform) (c : Option Canvas) (v : Option Video) :
    (∀ evs : List Event, (run P (State.init c v) evs).log.length ≤ 40) ∧
    (∀ (t : String) (s : State), (push t s).log.length ≤ 40) ∧
    (∀ (s : State) (e : Event),
      (step P s e).log = s.log ∨ ∃ t, (step P s e).log = (push t s).log) := by
  refine ⟨fun evs => run_log_length P evs _ (by simp [State.init]), ?_, ?_⟩
  · intro t s
    simp only [push, List.length_take]
    exact Nat.min_le_left _ _
  · intro s e
    exact step_log P s e

/-- C5: on a message of type `gesture` carrying the gesture string `g` and the
action string `a`, the handler completes normally, the gesture label becomes
`g`, the log becomes the first 40 elements of `"G:" ++ g ++ "->" ++ a` followed
by the previous log, and the connected flag, the canvas, the video and the
socket are unchanged. -/
theorem gesture_message_effect (P : Platform) (s : State) (m : Json) (g a : String)
    (ht : typeIs m "gesture" = true)
    (hg : getProp (some m) "gesture" = .ok (some (.str g)))
    (ha : getProp (some m) "action" = .ok (some (.str a))) :
    onmessage P (some m) s =
      ({ s with gesture := some (.str g),
                log := (("G:" ++ g ++ "->" ++ a) :: s.log).take 40 }, .normal) :=
  onmessage_gesture_strings P s m g a ht hg ha

/-- C5 at the payload of the specification's scenario: the label becomes
`swipe_left` and the log head is `G:swipe_left->prev_track`. -/
theorem gesture_message_effect_witness :
    typeIs (gestureMsg "swipe_left" "prev_track") "gesture" = true ∧
    onmessage Platform.const (some (gestureMsg "swipe_left" "prev_track"))
        (State.init none none) =
      ({ State.init none none with
          gesture := some (.str "swipe_left"),
          log := (("G:" ++ "swipe_left" ++ "->" ++ "prev_track") :: (State.init none none).log).take 40 },
        .normal) ∧
    ("G:" ++ "swipe_left" ++ "->" ++ "prev_track" : String) = "G:swipe_left->prev_track" :=
  ⟨by decide,
   gesture_message_effect Platform.const (State.init none none)
     (gestureMsg "swipe_left" "prev_track") "swipe_left" "prev_track" (by decide) rfl rfl,
   by decide⟩

/-- C6: after the open handler the connected flag is true, the log is the first
40 elements of `Connected` followed by the previous log, and the gesture label,
the canvas, the video and the socket are unchanged; from the initial state the
log is `["Connected"]` and connected is true. -/
theorem onopen_effect (s : State) (c : Option Canvas) (v : Option Video) :
    onopen s = { s with connected := true, log := ("Connected" :: s.log).take 40 } ∧
    (onopen (State.init c v)).log = ["Connected"] ∧
    (onopen (State.init c v)).connected = true :=
  ⟨rfl, rfl, rfl⟩

/-- C7: after the close handler the connected flag is false and the log, the
gesture label, the canvas, the video and the socket are as before; open followed
by close from the initial state leaves connected false and the log
`["Connected"]`. -/
theorem onclose_effect (s : State) (c : Option Canvas) (v : Option Video) :
    onclose s = { s with connected := false } ∧
    (onclose s).log = s.log ∧
    (onclose (onopen (State.init c v))).connected = false ∧
    (onclose (onopen (State.init c v))).log = ["Connected"] :=
  ⟨rfl, rfl, rfl, rfl⟩

/-- C10: when the canvas or the video element is missing, `draw` completes
normally and returns the state it was given, whatever the landmarks value. -/
theorem draw_noop_when_unavailable (P : Platform) (landmarks : JsVal) (s : State)
    (h : s.canvasRef = none ∨ s.videoRef = none) :
    draw P landmarks s = (s, .normal) := by
  unfold draw
  split
  · next c v hc hv =>
    rcases h with h | h
    · rw [h] at hc; cases hc
    · rw [h] at hv; cases hv
  · rfl

/-- C10 on a mounted canvas without a video element. -/
theorem draw_noop_when_unavailable_witness :
    draw Platform.const (some (.arr [.obj [("x", .num 1), ("y", .num 1)]]))
        (State.init (some Canvas.blank) none) =
      (State.init (some Canvas.blank) none, .normal) :=
  draw_noop_when_unavailable Platform.const _ (State.init (some Canvas.blank) none) (Or.inr rfl)

/-- A message whose type is not `gesture` leaves log and label alone. -/
theorem onmessage_not_gesture (P : Platform) (m : Json) (s : State)
    (h : typeIs m "gesture" = false) :
    (onmessage P (some m) s).1.log = s.log ∧ (onmessage P (some m) s).1.gesture = s.gesture := by
  unfold typeIs at h
  cases hty : getProp (some m) "type" with
  | error e =>
    simp only [onmessage, hty, and_self]
  | ok ty =>
    rw [hty] at h
    have h2 : strictEqStr ty "gesture" = false := h
    cases h3 : strictEqStr ty "landmarks" with
    | false => simp [onmessage, hty, h2, h3]
    | true =>
      cases h4 : getProp (some m) "landmarks" with
      | error e => simp [onmessage, hty, h2, h3, h4]
      | ok l =>
        simp only [onmessage, hty, h2, h3, h4, if_true, Bool.false_eq_true, if_false]
        exact ⟨draw_log _ _ _, draw_gesture _ _ _⟩

theorem cleanup_log (s : State) : (cleanup s).log = s.log := by
  unfold cleanup; split <;> rfl

theorem cleanup_gesture (s : State) : (cleanup s).gesture = s.gesture := by
  unfold cleanup; split <;> rfl

/-- The log changes at each event exactly by the entry the specification
assigns to the event. -/
theorem step_log_entry (P : Platform) (s : State) (e : Event) :
    (step P s e).log = match logEntry P e with
      | some t => (t :: s.log).take 40
      | none => s.log := by
  cases e with
  | «open» => rfl
  | close => rfl
  | unmount => exact cleanup_log s
  | message data =>
    cases data with
    | none => rfl
    | some m =>
      cases ht : typeIs m "gesture" with
      | false =>
        simp only [logEntry, ht, step]
        exact (onmessage_not_gesture P m s ht).1
      | true =>
        have ht0 := ht
        unfold typeIs at ht
        cases hty : getProp (some m) "type" with
        | error e => rw [hty] at ht; simp at ht
        | ok ty =>
          rw [hty] at ht
          have ht2 : strictEqStr ty "gesture" = true := ht
          obtain ⟨g, hg⟩ := getProp_ok_of_type hty "gesture"
          obtain ⟨a, ha⟩ := getProp_ok_of_type hty "action"
          cases hentry : gestureEntry P g a <;>
            simp [logEntry, ht0, step, onmessage, hty, ht2, hg, ha, hentry, push]

theorem take_append_take {α : Type} (n : Nat) (xs ys : List α) :
    (xs ++ ys.take n).take n = (xs ++ ys).take n := by
  rw [List.take_append_eq_append_take, List.take_append_eq_append_take, List.take_take]
  congr 2
  omega

/-- The log after a run, from any log of at most 40 entries. -/
theorem run_log_entries (P : Platform) (evs : List Event) (s : State)
    (hs : s.log.length ≤ 40) :
    (run P s evs).log = ((entries P evs).reverse ++ s.log).take 40 := by
  induction evs generalizing s with
  | nil => simpa [run, entries] using (List.take_of_length_le hs).symm
  | cons e evs ih =>
    have hrun : run P s (e :: evs) = run P (step P s e) evs := rfl
    rw [hrun, ih (step P s e) (step_log_length P s e hs), step_log_entry P s e]
    cases hle : logEntry P e with
    | none => simp [entries, hle]
    | some t =>
      have : entries P (e :: evs) = t :: entries P evs := by simp [entries, hle]
      rw [this]
      simp only [List.reverse_cons, List.append_assoc, List.singleton_append]
      exact take_append_take 40 _ _

/-- The label after a step is the event's gesture identifier when it has one
and the previous label otherwise. -/
theorem step_gesture (P : Platform) (s : State) (e : Event) :
    (step P s e).gesture = (gestureOf e).getD s.gesture := by
  cases e with
  | «open» => rfl
  | close => rfl
  | unmount => exact cleanup_gesture s
  | message data =>
    cases data with
    | none => rfl
    | some m =>
      cases ht : typeIs m "gesture" with
      | false =>
        simp only [gestureOf, ht, step]
        exact (onmessage_not_gesture P m s ht).2
      | true =>
        have ht0 := ht
        unfold typeIs at ht
        cases hty : getProp (some m) "type" with
        | error e => rw [hty] at ht; simp at ht
        | ok ty =>
          rw [hty] at ht
          have ht2 : strictEqStr ty "gesture" = true := ht
          obtain ⟨g, hg⟩ := getProp_ok_of_type hty "gesture"
          obtain ⟨a, ha⟩ := getProp_ok_of_type hty "action"
          cases hentry : gestureEntry P g a <;>
            simp [gestureOf, ht0, step, onmessage, hty, ht2, hg, ha, hentry, push]

theorem run_gesture (P : Platform) (evs : List Event) (s : State) :
    (run P s evs).gesture = ((evs.filterMap gestureOf).getLast?).getD s.gesture := by
  induction evs generalizing s with
  | nil => rfl
  | cons e evs ih =>
    have hrun : run P s (e :: evs) = run P (step P s e) evs := rfl
    rw [hrun, ih, step_gesture]
    cases hg : gestureOf e with
    | none => simp [hg]
    | some g =>
      simp only [List.filterMap_cons, hg, Option.getD_some, List.getLast?_cons]

/-- C1: for every finite sequence of events handled in order from the initial
state, the log is the last 40 of the entries of the sequence, newest first, and
with `N` entries it has `min N 40` elements. The entries are `Connected` for an
open, `G:<gesture>-><action>` for a message of type `gesture` (for string fields
`g` and `a` the text `"G:" ++ g ++ "->" ++ a`), and nothing for a close, an
unmount, an unparseable payload and a message of any other type, landmarks
included. -/
theorem log_is_last_40_entries_newest_first (P : Platform) (c : Option Canvas)
    (v : Option Video) :
    (∀ evs : List Event,
      (run P (State.init c v) evs).log =
          ((entries P evs).drop ((entries P evs).length - 40)).reverse ∧
      (run P (State.init c v) evs).log.length = min (entries P evs).length 40) ∧
    logEntry P Event.open = some "Connected" ∧
    (∀ (m : Json) (g a : String), typeIs m "gesture" = true →
      getProp (some m) "gesture" = .ok (some (.str g)) →
      getProp (some m) "action" = .ok (some (.str a)) →
      logEntry P (Event.message (some m)) = some ("G:" ++ g ++ "->" ++ a)) ∧
    logEntry P Event.close = none ∧
    logEntry P Event.unmount = none ∧
    logEntry P (Event.message none) = none ∧
    (∀ m : Json, typeIs m "gesture" = false → logEntry P (Event.message (some m)) = none) := by
  refine ⟨?_, rfl, ?_, rfl, rfl, rfl, ?_⟩
  · intro evs
    have key := run_log_entries P evs (State.init c v) (by simp [State.init])
    have h0 : (State.init c v).log = [] := rfl
    rw [h0, List.append_nil, List.take_reverse] at key
    refine ⟨key, ?_⟩
    rw [key, List.length_reverse, List.length_drop]
    omega
  · intro m g a ht hg ha
    simp only [logEntry, ht, if_true, hg, ha, gestureEntry, toStrVal, Json.toStr]
  · intro m ht
    simp only [logEntry, ht, Bool.false_eq_true, if_false]

/-- C1 on 42 gesture events with distinct identifiers: the log has 40 entries,
its head is the 42nd entry and the entries of the first two events are not in
it; the entry of the 42nd event is the formatted text; and a message of type
`gesture` without fields is logged as the template literal prints it. -/
theorem log_is_last_40_entries_newest_first_witness :
    ((run Platform.const (State.init none none) events42).log =
        ((entries Platform.const events42).drop
          ((entries Platform.const events42).length - 40)).reverse ∧
      (run Platform.const (State.init none none) events42).log.length =
        min (entries Platform.const events42).length 40) ∧
    typeIs (gestureMsg "g42" "act") "gesture" = true ∧
    logEntry Platform.const (Event.message (some (gestureMsg "g42" "act"))) =
      some ("G:" ++ "g42" ++ "->" ++ "act") ∧
    (run Platform.const (State.init none none) events42).log.length = 40 ∧
    (run Platform.const (State.init none none) events42).log.head? = some "G:g42->act" ∧
    "G:g1->act" ∉ (run Platform.const (State.init none none) events42).log ∧
    "G:g2->act" ∉ (run Platform.const (State.init none none) events42).log ∧
    (run Platform.const (State.init none none)
      [Event.message (some (Json.obj [("type", Json.str "gesture")]))]).log =
        ["G:undefined->undefined"] :=
  ⟨(log_is_last_40_entries_newest_first Platform.const none none).1 events42,
   by decide,
   (log_is_last_40_entries_newest_first Platform.const none none).2.2.1
     (gestureMsg "g42" "act") "g42" "act" (by decide) rfl rfl,
   by decide, by decide, by decide, by decide, by decide⟩

/-- C2: after any finite sequence of events handled in order from the initial
state, the gesture label is the gesture identifier of the last message of type
`gesture` in the sequence, and the default `—` when there is none; an event that
is not a gesture message (open, close, landmarks, any other or unparseable
message, unmount) leaves the label as it was. -/
theorem gesture_label_is_latest (P : Platform) (c : Option Canvas) (v : Option Video) :
    (∀ evs : List Event,
      (run P (State.init c v) evs).gesture =
        ((evs.filterMap gestureOf).getLast?).getD (some (.str "—"))) ∧
    (∀ (s : State) (e : Event), gestureOf e = none → (step P s e).gesture = s.gesture) := by
  refine ⟨fun evs => run_gesture P evs (State.init c v), ?_⟩
  intro s e he
  rw [step_gesture, he]
  rfl

/-- C2 on a mixed run, whose only gesture message carries `swipe_left`, on the
empty run, and on a close, which has no gesture identifier. -/
theorem gesture_label_is_latest_witness :
    (run Platform.const (State.init none none) mixedRun).gesture = some (.str "swipe_left") ∧
    (run Platform.const (State.init none none) []).gesture = some (.str "—") ∧
    gestureOf Event.close = none ∧
    (step Platform.const (State.init none none) Event.close).gesture =
      (State.init none none).gesture :=
  ⟨(gesture_label_is_latest Platform.const none none).1 mixedRun,
   (gesture_label_is_latest Platform.const none none).1 [],
   rfl,
   (gesture_label_is_latest Platform.const none none).2 (State.init none none) Event.close rfl⟩

/-- C3 fails as stated: the payload `null` parses as JSON and has neither
discriminant, yet the handler throws a `TypeError` on reading its `type`. -/
theorem unrecognized_message_null_throws :
    ¬ (∀ (P : Platform) (s : State) (m : Json),
        typeIs m "gesture" = false → typeIs m "landmarks" = false →
        onmessage P (some m) s = (s, Completion.normal)) := by
  intro h
  have h1 := h Platform.const (State.init none none) Json.null rfl rfl
  have h2 : (onmessage Platform.const (some Json.null) (State.init none none)).2 =
      Completion.throw JsError.TypeError := rfl
  rw [h1] at h2
  cases h2

/-- C3, amended: on a parsed payload whose type discriminant is neither
`gesture` nor `landmarks` the state after the handler is the state before; the
handler completes normally when the payload is not `null`, and throws a
`TypeError` when it is. -/
theorem unrecognized_message_ignored (P : Platform) (s : State) (m : Json)
    (hg : typeIs m "gesture" = false) (hl : typeIs m "landmarks" = false) :
    (onmessage P (some m) s).1 = s ∧
    (m ≠ Json.null → (onmessage P (some m) s).2 = Completion.normal) ∧
    (m = Json.null → (onmessage P (some m) s).2 = Completion.throw JsError.TypeError) := by
  unfold typeIs at hg hl
  cases hty : getProp (some m) "type" with
  | error e =>
    have hm : m = Json.null := by
      cases m <;> simp [getProp] at hty ⊢
    subst hm
    exact ⟨rfl, fun h => absurd rfl h, fun _ => rfl⟩
  | ok ty =>
    rw [hty] at hg hl
    have hg2 : strictEqStr ty "gesture" = false := hg
    have hl2 : strictEqStr ty "landmarks" = false := hl
    have hm : m ≠ Json.null := by
      intro h0; subst h0; simp [getProp] at hty
    have hon : onmessage P (some m) s = (s, Completion.normal) := by
      simp [onmessage, hty, hg2, hl2]
    exact ⟨by rw [hon], fun _ => by rw [hon], fun h0 => absurd h0 hm⟩

/-- C3, amended, on an object without a `type` field. -/
theorem unrecognized_message_ignored_witness :
    typeIs (Json.obj [("kind", Json.str "gesture")]) "gesture" = false ∧
    typeIs (Json.obj [("kind", Json.str "gesture")]) "landmarks" = false ∧
    (onmessage Platform.const (some (Json.obj [("kind", Json.str "gesture")]))
        (State.init none none)).1 = State.init none none ∧
    (onmessage Platform.const (some (Json.obj [("kind", Json.str "gesture")]))
        (State.init none none)).2 = Completion.normal :=
  ⟨rfl, rfl,
   (unrecognized_message_ignored Platform.const (State.init none none)
      (Json.obj [("kind", Json.str "gesture")]) rfl rfl).1,
   (unrecognized_message_ignored Platform.const (State.init none none)
      (Json.obj [("kind", Json.str "gesture")]) rfl rfl).2.1 (by intro h; cases h)⟩

/-- The surface as `draw` prepares it before the loop: sized to the video,
empty, in the marker colour. -/
theorem draw_eq (P : Platform) (S : JsVal) (s : State) (c : Canvas) (v : Video)
    (hc : s.canvasRef = some c) (hv : s.videoRef = some v) :
    draw P S s =
      match iterate S with
      | .error e =>
        ({ s with canvasRef := some ⟨v.videoWidth, v.videoHeight, "rgba(0,255,0,0.9)", [], []⟩ },
          .throw e)
      | .ok ps =>
        ({ s with canvasRef := some (drawLoop P
              ⟨v.videoWidth, v.videoHeight, "rgba(0,255,0,0.9)", [], []⟩ ps).1 },
          (drawLoop P ⟨v.videoWidth, v.videoHeight, "rgba(0,255,0,0.9)", [], []⟩ ps).2) := by
  simp only [draw, hc, hv, Canvas.setWidth, Canvas.setHeight, Canvas.clearRect]

theorem drawPoint_point (P : Platform) (c : Canvas) (j : Json) (p : ℚ × ℚ) (h : IsPoint j p) :
    drawPoint P c j =
      ({ c with path := [⟨p.1 * c.width, p.2 * c.height, 4⟩],
                painted := c.painted ++ [⟨⟨p.1 * c.width, p.2 * c.height, 4⟩, c.fillStyle⟩] },
        .normal) := by
  obtain ⟨hx, hy⟩ := h
  simp [drawPoint, coord, Canvas.beginPath, hx, hy, toNumber, Canvas.arc, Canvas.fill]

theorem drawLoop_points (P : Platform) (js : List Json) (pts : List (ℚ × ℚ))
    (h : List.Forall₂ IsPoint js pts) (c : Canvas) :
    (drawLoop P c js).2 = .normal ∧
    (drawLoop P c js).1.width = c.width ∧
    (drawLoop P c js).1.height = c.height ∧
    (drawLoop P c js).1.fillStyle = c.fillStyle ∧
    (drawLoop P c js).1.painted =
      c.painted ++ pts.map fun p => ⟨⟨p.1 * c.width, p.2 * c.height, 4⟩, c.fillStyle⟩ := by
  induction h generalizing c with
  | nil => simp [drawLoop]
  | cons hp _ ih =>
    rw [drawLoop, drawPoint_point P c _ _ hp]
    simp only
    obtain ⟨i1, i2, i3, i4, i5⟩ := ih
      { c with path := [⟨_, _, 4⟩], painted := c.painted ++ [⟨⟨_, _, 4⟩, c.fillStyle⟩] }
    refine ⟨i1, i2, i3, i4, ?_⟩
    rw [i5]
    simp

theorem strictEqStr_landmarks_not_gesture {ty : JsVal}
    (h : strictEqStr ty "landmarks" = true) : strictEqStr ty "gesture" = false := by
  unfold strictEqStr at h ⊢
  split at h
  · next t =>
    have : t = "landmarks" := by simpa using h
    subst this
    decide
  · cases h

/-- C8: with the canvas and the video element both present, a message of type
`landmarks` carrying the points `p_1..p_n` makes the handler complete normally
and leaves a surface whose width and height are the video's, on which exactly
the `n` markers are painted, the `i`-th a circle of radius 4 centred at
`(p_i.x * W, p_i.y * H)`; the log, the gesture label, the connected flag, the
video and the socket are unchanged. -/
theorem landmarks_message_effect (P : Platform) (s : State) (c : Canvas) (v : Video)
    (m : Json) (js : List Json) (pts : List (ℚ × ℚ))
    (hc : s.canvasRef = some c) (hv : s.videoRef = some v)
    (ht : typeIs m "landmarks" = true)
    (hl : getProp (some m) "landmarks" = .ok (some (.arr js)))
    (hp : List.Forall₂ IsPoint js pts) :
    ∃ c' : Canvas,
      onmessage P (some m) s = ({ s with canvasRef := some c' }, .normal) ∧
      c'.width = v.videoWidth ∧ c'.height = v.videoHeight ∧
      c'.painted = pts.map (markerAt v.videoWidth v.videoHeight) ∧
      c'.painted.length = pts.length ∧
      ∀ k ∈ c'.painted, k.shape.radius = 4 := by
  unfold typeIs at ht
  cases hty : getProp (some m) "type" with
  | error e => rw [hty] at ht; simp at ht
  | ok ty =>
    rw [hty] at ht
    have ht2 : strictEqStr ty "landmarks" = true := ht
    have ht3 := strictEqStr_landmarks_not_gesture ht2
    obtain ⟨i1, i2, i3, _, i5⟩ := drawLoop_points P js pts hp
      ⟨v.videoWidth, v.videoHeight, "rgba(0,255,0,0.9)", [], []⟩
    have i6 : (drawLoop P ⟨v.videoWidth, v.videoHeight, "rgba(0,255,0,0.9)", [], []⟩ js).1.painted
        = pts.map (markerAt v.videoWidth v.videoHeight) := by
      rw [i5]; rfl
    refine ⟨(drawLoop P ⟨v.videoWidth, v.videoHeight, "rgba(0,255,0,0.9)", [], []⟩ js).1,
      ?_, i2, i3, i6, ?_, ?_⟩
    · simp only [onmessage, hty, ht2, ht3, hl, if_true, Bool.false_eq_true, if_false,
        draw_eq P _ s c v hc hv, iterate, i1]
    · rw [i6, List.length_map]
    · intro k hk
      rw [i6, List.mem_map] at hk
      obtain ⟨p, _, rfl⟩ := hk
      rfl

/-- C8 on one point at the centre-left of a 640 by 480 video. -/
theorem landmarks_message_effect_witness :
    ∃ c' : Canvas,
      onmessage Platform.const (some (landmarksMsg [(1/2, 1/4)]))
          (State.init (some Canvas.blank) (some ⟨640, 480⟩)) =
        ({ State.init (some Canvas.blank) (some ⟨640, 480⟩) with canvasRef := some c' },
          .normal) ∧
      c'.width = 640 ∧ c'.height = 480 ∧
      c'.painted = [(1/2, 1/4)].map (markerAt 640 480) ∧
      c'.painted.length = [((1:ℚ)/2, (1:ℚ)/4)].length ∧
      ∀ k ∈ c'.painted, k.shape.radius = 4 :=
  landmarks_message_effect Platform.const (State.init (some Canvas.blank) (some ⟨640, 480⟩))
    Canvas.blank ⟨640, 480⟩ (landmarksMsg [(1/2, 1/4)])
    [.obj [("x", .num (1/2)), ("y", .num (1/4))]] [(1/2, 1/4)] rfl rfl (by decide) rfl
    (List.Forall₂.cons ⟨rfl, rfl⟩ List.Forall₂.nil)

/-- C9: with the canvas and the video element present, the surface and the
completion after `draw(S)` are the same from any two prior surfaces, so they
depend only on `S` and the video's dimensions; `draw(S)` twice gives what
`draw(S)` once gives; and after `draw(S')` then `draw(S)` the surface is that of
`draw(S)` alone, so nothing of the earlier frame is left. -/
theorem draw_replaces_frame (P : Platform) (S S' : JsVal) (s1 s2 : State)
    (c1 c2 : Canvas) (v : Video)
    (h1 : s1.canvasRef = some c1) (h2 : s2.canvasRef = some c2)
    (hv1 : s1.videoRef = some v) (hv2 : s2.videoRef = some v) :
    (draw P S s1).1.canvasRef = (draw P S s2).1.canvasRef ∧
    (draw P S s1).2 = (draw P S s2).2 ∧
    draw P S (draw P S s1).1 = draw P S s1 ∧
    (draw P S (draw P S' s1).1).1.canvasRef = (draw P S s1).1.canvasRef := by
  have e1 := draw_eq P S s1 c1 v h1 hv1
  have e2 := draw_eq P S s2 c2 v h2 hv2
  have key : ∀ (T : JsVal), ∃ c3, (draw P T s1).1 = { s1 with canvasRef := some c3 } := by
    intro T
    rw [draw_eq P T s1 c1 v h1 hv1]
    cases iterate T <;> exact ⟨_, rfl⟩
  refine ⟨?_, ?_, ?_, ?_⟩
  · rw [e1, e2]; cases iterate S <;> rfl
  · rw [e1, e2]; cases iterate S <;> rfl
  · obtain ⟨c3, h3⟩ := key S
    rw [h3, draw_eq P S { s1 with canvasRef := some c3 } c3 v rfl hv1, e1]
  · obtain ⟨c3, h3⟩ := key S'
    rw [h3, draw_eq P S { s1 with canvasRef := some c3 } c3 v rfl hv1, e1]

/-- C9 on a canvas that already shows a marker: drawing one point gives the same
surface as drawing it on a blank canvas, and drawing it again changes nothing. -/
theorem draw_replaces_frame_witness :
    (draw Platform.const (some (.arr [.obj [("x", .num 1), ("y", .num 1)]]))
        (State.init (some ⟨10, 10, "red", [], [⟨⟨5, 5, 4⟩, "red"⟩]⟩) (some ⟨640, 480⟩))).1.canvasRef =
      (draw Platform.const (some (.arr [.obj [("x", .num 1), ("y", .num 1)]]))
        (State.init (some Canvas.blank) (some ⟨640, 480⟩))).1.canvasRef ∧
    draw Platform.const (some (.arr [.obj [("x", .num 1), ("y", .num 1)]]))
        (draw Platform.const (some (.arr [.obj [("x", .num 1), ("y", .num 1)]]))
          (State.init (some ⟨10, 10, "red", [], [⟨⟨5, 5, 4⟩, "red"⟩]⟩) (some ⟨640, 480⟩))).1 =
      draw Platform.const (some (.arr [.obj [("x", .num 1), ("y", .num 1)]]))
        (State.init (some ⟨10, 10, "red", [], [⟨⟨5, 5, 4⟩, "red"⟩]⟩) (some ⟨640, 480⟩)) :=
  ⟨(draw_replaces_frame Platform.const (some (.arr [.obj [("x", .num 1), ("y", .num 1)]])) none
      (State.init (some ⟨10, 10, "red", [], [⟨⟨5, 5, 4⟩, "red"⟩]⟩) (some ⟨640, 480⟩))
      (State.init (some Canvas.blank) (some ⟨640, 480⟩))
      ⟨10, 10, "red", [], [⟨⟨5, 5, 4⟩, "red"⟩]⟩ Canvas.blank ⟨640, 480⟩ rfl rfl rfl rfl).1,
   (draw_replaces_frame Platform.const (some (.arr [.obj [("x", .num 1), ("y", .num 1)]])) none
      (State.init (some ⟨10, 10, "red", [], [⟨⟨5, 5, 4⟩, "red"⟩]⟩) (some ⟨640, 480⟩))
      (State.init (some Canvas.blank) (some ⟨640, 480⟩))
      ⟨10, 10, "red", [], [⟨⟨5, 5, 4⟩, "red"⟩]⟩ Canvas.blank ⟨640, 480⟩ rfl rfl rfl rfl).2.2.1⟩

end JarvisHUD
